import Mathlib

/-!
Verification development for the operator's synchronization and
reconciliation engine.

The definitions below are a shallow embedding of the Go sources:
  * `src/pkg/gitops/state_backup.go` (change-set engine, Redis-backed state)
  * `src/unnamed/part_004` (repository sync controller, `Sync.Watch`/`Sync.Close`)
  * `src/pkg/gmapi/commands.go` (command dispatch)
  * `src/pkg/mesh_install/installer.go` (reconcilers)

External collaborators (gjson field extraction, hashstructure hashing, the
CUE configuration evaluator, the Kubernetes and mesh control-plane clients)
are modelled as parameters: the theorems quantify over their behavior.
Machine `uint64` hashes are modelled as `Nat`; only equality of hashes is
ever observed by the embedded code, so overflow is irrelevant.
-/

namespace Operator

/-! ## Association-list model of Go string-keyed maps -/

/-- Lookup in a string-keyed map (first matching binding). -/
def mapLookup {α : Type} : List (String × α) → String → Option α
  | [], _ => none
  | (k2, v) :: rest, k => if k2 = k then some v else mapLookup rest k

/-- Insert-or-overwrite, mirroring Go `m[k] = v` semantics. -/
def mapInsert {α : Type} : List (String × α) → String → α → List (String × α)
  | [], k, v => [(k, v)]
  | (k2, v2) :: rest, k, v =>
    if k2 = k then (k2, v) :: rest else (k2, v2) :: mapInsert rest k v

/-! ## Change-set engine: `GMObjectRef` (state_backup.go) -/

/-- Reference to a Grey Matter config object: zone, kind, identity field
and a content hash, as in `GMObjectRef` of state_backup.go. -/
structure GMObjectRef where
  zone : String
  kind : String
  id   : String
  hash : Nat
  deriving DecidableEq, Repr

/-- Go `fmt.Sprintf("%s-%s-%s", obj.Zone, obj.Kind, obj.ID)`. -/
def GMObjectRef.hashKey (o : GMObjectRef) : String :=
  o.zone ++ "-" ++ o.kind ++ "-" ++ o.id

/-- Modelled from the spec: `cuemodule.KindToKeyName` is not under `src/`.
The spec states the id is extracted from a kind-specific field, e.g.
`cluster_key`, or `service_id` for catalog entries; `kindKey` in
`src/pkg/gmapi/commands.go` exhibits the same mapping. -/
def KindToKeyName (kind : String) : String :=
  if kind = "catalogservice" then "service_id" else kind ++ "_key"

/-- `NewGMObjectRef` of state_backup.go, parameterized over the external
gjson field extractor and the hashstructure content hash. -/
def NewGMObjectRef (gjsonGet : String → String → String) (hashBytes : String → Nat)
    (objBytes : String) (kind : String) : GMObjectRef :=
  let keyName := KindToKeyName kind
  let zoneLookupKey := if kind = "catalogservice" then "mesh_id" else "zone_key"
  { zone := gjsonGet objBytes zoneLookupKey
    kind := kind
    id   := gjsonGet objBytes keyName
    hash := hashBytes objBytes }

/-! ## Change-set engine: `K8sObjectRef` (state_backup.go) -/

/-- Kubernetes GroupVersionKind. -/
structure GroupVersionKind where
  group   : String
  version : String
  kind    : String
  deriving DecidableEq, Repr

/-- Go `schema.GroupVersionKind.String()`, as exercised by
`TestK8sHashKey` in sync_backup_test.go. -/
def GroupVersionKind.render (g : GroupVersionKind) : String :=
  g.group ++ "/" ++ g.version ++ ", Kind=" ++ g.kind

/-- A Kubernetes manifest object, reduced to the parts the change-set
engine reads: namespace, GVK, name, and an opaque body that feeds the
structural hash. -/
structure K8sObject where
  ns   : String
  gvk  : GroupVersionKind
  name : String
  body : String
  deriving DecidableEq, Repr

/-- Reference to a workload manifest, as in `K8sObjectRef` of
state_backup.go. -/
structure K8sObjectRef where
  ns   : String
  kind : GroupVersionKind
  name : String
  hash : Nat
  deriving DecidableEq, Repr

/-- `NewK8sObjectRef`, parameterized over the hashstructure hash of the
whole in-memory object. -/
def NewK8sObjectRef (hashObj : K8sObject → Nat) (o : K8sObject) : K8sObjectRef :=
  { ns := o.ns, kind := o.gvk, name := o.name, hash := hashObj o }

/-- Go `fmt.Sprintf("%s-%s-%s", obj.Namespace, obj.Kind, obj.Name)`. -/
def K8sObjectRef.hashKey (o : K8sObjectRef) : String :=
  o.ns ++ "-" ++ o.kind.render ++ "-" ++ o.name

/-! ## The diff pass shared by `FilterChangedGM` and `FilterChangedK8s`

Both Go functions run the same loop: build a fresh map keyed by
`HashKey`, and emit a candidate as changed when the previous snapshot has
no binding at its key or holds a different hash.  `filterChangedCore`
is that loop; the two wrappers below instantiate it for each universe. -/

/-- The per-candidate test `!ok || prevVal.Hash != val.Hash` of both
filter loops. -/
def changedCheck {β : Type} (keyOf : β → String) (hashOf : β → Nat)
    (prev : List (String × β)) (val : β) : Bool :=
  match mapLookup prev (keyOf val) with
  | none => true
  | some prevVal => hashOf prevVal != hashOf val

/-- The shared loop body: walk the candidates left to right, building the
fresh map (`newHashes`) and the changed list in candidate order. -/
def filterChangedCore {α β : Type} (mk : α → β) (keyOf : β → String) (hashOf : β → Nat)
    (prev : List (String × β)) :
    List α → List (String × β) → List (String × β) × List α
  | [], acc => (acc, [])
  | a :: rest, acc =>
    let val := mk a
    let acc2 := mapInsert acc (keyOf val) val
    let res := filterChangedCore mk keyOf hashOf prev rest acc2
    if changedCheck keyOf hashOf prev val then (res.1, a :: res.2) else (res.1, res.2)

/-- Snapshot of the GM universe: the identity-keyed map
`previousGMHashes`. -/
abbrev GMSnapshot := List (String × GMObjectRef)

/-- Snapshot of the K8s universe: the identity-keyed map
`previousK8sHashes`. -/
abbrev K8sSnapshot := List (String × K8sObjectRef)

/-- Result of one `FilterChangedGM` pass: the filtered objects and kinds,
the deleted refs, and the replaced snapshot. -/
structure GMFilterResult where
  filteredConf     : List String
  filteredKinds    : List String
  deleted          : List GMObjectRef
  previousGMHashes : GMSnapshot
  deriving DecidableEq, Repr

/-- `SyncState.FilterChangedGM` of state_backup.go.  The candidates are the
zip of `configObjects` with `kinds` (the Go loop indexes `kinds[i]` while
ranging over `configObjects`).  The deleted refs are the previous bindings
whose key is absent from the fresh map; Go iterates the map in
unspecified order, determinized here as snapshot order. -/
def FilterChangedGM (gjsonGet : String → String → String) (hashBytes : String → Nat)
    (prev : GMSnapshot) (configObjects : List String) (kinds : List String) :
    GMFilterResult :=
  let mk := fun (a : String × String) => NewGMObjectRef gjsonGet hashBytes a.1 a.2
  let res :=
    filterChangedCore mk GMObjectRef.hashKey GMObjectRef.hash prev
      (configObjects.zip kinds) []
  { filteredConf     := res.2.map (·.1)
    filteredKinds    := res.2.map (fun a => (mk a).kind)
    deleted          := (prev.filter (fun p => (mapLookup res.1 p.1).isNone)).map (·.2)
    previousGMHashes := res.1 }

/-- Result of one `FilterChangedK8s` pass. -/
structure K8sFilterResult where
  filtered          : List K8sObject
  deleted           : List K8sObjectRef
  previousK8sHashes : K8sSnapshot
  deriving DecidableEq, Repr

/-- `SyncState.FilterChangedK8s` of state_backup.go. -/
def FilterChangedK8s (hashObj : K8sObject → Nat) (prev : K8sSnapshot)
    (manifestObjects : List K8sObject) : K8sFilterResult :=
  let mk := NewK8sObjectRef hashObj
  let res :=
    filterChangedCore mk K8sObjectRef.hashKey K8sObjectRef.hash prev manifestObjects []
  { filtered          := res.2
    deleted           := (prev.filter (fun p => (mapLookup res.1 p.1).isNone)).map (·.2)
    previousK8sHashes := res.1 }

/-! ## Startup state loading: `NewSyncState` (state_backup.go) -/

/-- The observable outcome of constructing a `SyncState`: the two loaded
snapshots, which internal resources were initialized (`saveChans` map,
redis client), the channel close flags, and whether the asynchronous
backup loop was launched. -/
structure SyncStateModel where
  previousGMHashes   : GMSnapshot
  previousK8sHashes  : K8sSnapshot
  saveChansPresent   : Bool
  redisPresent       : Bool
  gmChanClosed       : Bool
  k8sChanClosed      : Bool
  backupLoopLaunched : Bool
  deriving DecidableEq, Repr

/-- The Go zero value `&SyncState{}` returned by `NewSyncState` on any
failure: nil snapshot maps, nil `saveChans` map, nil redis client, no
backup loop. -/
def emptySyncState : SyncStateModel :=
  { previousGMHashes := [], previousK8sHashes := [], saveChansPresent := false
    redisPresent := false, gmChanClosed := false, k8sChanClosed := false
    backupLoopLaunched := false }

deriving instance DecidableEq for Except

/-- The external key-value store as observed by `NewSyncState`: whether the
initial `Ping` succeeds and the raw bytes (or error) returned by `Get` for
each persisted key. -/
structure StoreModel where
  connectOK : Bool
  gmGet     : Except String String
  k8sGet    : Except String String
  deriving DecidableEq, Repr

/-- `NewSyncState` of state_backup.go, parameterized over the store and the
two `json.Unmarshal` outcomes.  Mirrors the source's control flow: connect
failure or any read/unmarshal failure returns the zero-value state, and
`launchAsyncStateBackupLoop` runs only after both loads succeed. -/
def NewSyncState (store : StoreModel)
    (unmarshalGM : String → Option GMSnapshot)
    (unmarshalK8s : String → Option K8sSnapshot) : SyncStateModel :=
  if !store.connectOK then emptySyncState
  else
    match store.gmGet with
    | .error _ => emptySyncState
    | .ok bsGM =>
      match unmarshalGM bsGM with
      | none => emptySyncState
      | some loadedGMHashes =>
        match store.k8sGet with
        | .error _ => emptySyncState
        | .ok bsK8s =>
          match unmarshalK8s bsK8s with
          | none => emptySyncState
          | some loadedK8sHashes =>
            { previousGMHashes := loadedGMHashes
              previousK8sHashes := loadedK8sHashes
              saveChansPresent := true
              redisPresent := true
              gmChanClosed := false
              k8sChanClosed := false
              backupLoopLaunched := true }

/-! ## `Sync.Close` (src/unnamed/part_004) -/

/-- The `Sync` struct fields `Close` reads: the cancellation function and
the (possibly absent) `SyncState`. -/
structure SyncModel where
  cancelPresent : Bool
  cancelled     : Bool
  syncState     : Option SyncStateModel
  deriving DecidableEq, Repr

/-- `Sync.Close`: cancel the watch loop, return nil when `SyncState` is
nil, otherwise close every channel in `saveChans` and close the redis
client.  A Go runtime panic (closing an already-closed channel; calling
`Close` on a nil redis client) is modelled as `Except.error`. -/
def SyncClose (s : SyncModel) : Except String SyncModel :=
  let s := if s.cancelPresent then { s with cancelled := true } else s
  match s.syncState with
  | none => .ok s
  | some ss =>
    if ss.saveChansPresent then
      if ss.gmChanClosed || ss.k8sChanClosed then
        .error "panic: close of closed channel"
      else
        let ss2 := { ss with gmChanClosed := true, k8sChanClosed := true }
        if ss2.redisPresent then .ok { s with syncState := some ss2 }
        else .error "panic: nil pointer dereference in redis Client.Close"
    else
      if ss.redisPresent then .ok s
      else .error "panic: nil pointer dereference in redis Client.Close"

/-! ## Snapshot-dirty notification channels (state_backup.go)

`NewSyncState` allocates `make(chan interface{}, 1)` per universe, and
each diff pass runs `go func() { ss.saveChans[k] <- struct{}{} }()`:
an asynchronous but *blocking* send from a spawned goroutine.  The model
tracks the buffer occupancy, the senders parked on a full buffer, and the
signals the drain loop has consumed. -/

/-- State of one capacity-1 notification channel. -/
structure Chan1 where
  buffered  : Nat
  parked    : Nat
  delivered : Nat
  deriving DecidableEq, Repr

/-- Capacity of each `saveChans` channel: `make(chan interface{}, 1)`. -/
def chanCap : Nat := 1

/-- A freshly allocated channel. -/
def chanEmpty : Chan1 := { buffered := 0, parked := 0, delivered := 0 }

/-- A (goroutine-wrapped) send: fills a buffer slot when one is free,
otherwise parks the sending goroutine. -/
def chanSend (c : Chan1) : Chan1 :=
  if c.buffered < chanCap then { c with buffered := c.buffered + 1 }
  else { c with parked := c.parked + 1 }

/-- One receive by the drain loop: consumes a buffered signal and admits
one parked sender into the freed slot; a receive on an empty buffer
blocks (modelled as a no-op step). -/
def chanRecv (c : Chan1) : Chan1 :=
  if c.buffered = 0 then c
  else
    let c2 := { c with buffered := c.buffered - 1, delivered := c.delivered + 1 }
    if c2.parked > 0 then
      { c2 with parked := c2.parked - 1, buffered := c2.buffered + 1 }
    else c2

/-- N dirty signals issued back-to-back (one per diff pass) with no
intervening drain. -/
def sendN (n : Nat) (c : Chan1) : Chan1 := chanSend^[n] c

/-! ## Repository watch loop: `Sync.Watch` (src/unnamed/part_004) -/

/-- The `currentSHA` the loop sees for one iteration: `gitUpdate` returns
the head commit hash on success and the empty string alongside an error. -/
def watchCurrentSHA : Option String → String
  | none => ""
  | some sha => sha

/-- One iteration of the `Watch` loop body: the new `lastSHA` and whether
the `OnSyncCompleted` callback fires
(`s.OnSyncCompleted != nil && lastSHA != "" && lastSHA != currentSHA`).
The callback's own error is only logged, so it does not enter the state. -/
def watchStep (cbPresent : Bool) (lastSHA : String) (upd : Option String) :
    String × Bool :=
  let currentSHA := watchCurrentSHA upd
  (currentSHA, cbPresent && !(lastSHA == "") && !(lastSHA == currentSHA))

/-- The callback-invocation trace of the loop over a sequence of
`gitUpdate` outcomes, starting from a given `lastSHA`. -/
def watchInvocations (cbPresent : Bool) : String → List (Option String) → List Bool
  | _, [] => []
  | lastSHA, upd :: rest =>
    let step := watchStep cbPresent lastSHA upd
    step.2 :: watchInvocations cbPresent step.1 rest

/-- A full `Watch` run: `lastSHA` starts as the empty string. -/
def watchRun (cbPresent : Bool) (upds : List (Option String)) : List Bool :=
  watchInvocations cbPresent "" upds

/-- The invocation trace the claim describes, for runs where every
iteration resolves a head: never on the first iteration, then exactly
when the head differs from the previous iteration's head. -/
def watchClaimedInvocations (cbPresent : Bool) : List String → List Bool
  | [] => []
  | h :: t => false :: List.zipWith (fun prev cur => cbPresent && !(prev == cur)) (h :: t) t

/-! ## Command dispatch (src/pkg/gmapi/commands.go) -/

/-- A mesh control-plane command: CLI args, requeue-on-failure flag, and
the optional stdin payload.  The `log` callback only writes to the log
stream and is not modelled. -/
structure Cmd where
  args    : String
  requeue : Bool
  stdin   : Option String
  deriving DecidableEq, Repr

/-- `MkApply` of commands.go. -/
def MkApply (kind : String) (data : String) : Cmd :=
  { args := "apply -t " ++ kind ++ " -f -", requeue := true, stdin := some data }

/-- `kindFlag` of commands.go. -/
def kindFlag (kind : String) : String :=
  if kind = "catalogservice" then "service-id" else kind ++ "-key"

/-- `mkDeleteByGMObjectRef` of commands.go. -/
def mkDeleteByGMObjectRef (objRef : GMObjectRef) : Cmd :=
  let args := "delete " ++ objRef.kind ++ " --" ++ kindFlag objRef.kind ++ " " ++ objRef.id
  let args :=
    if objRef.kind = "catalogservice" then args ++ " --mesh-id " ++ objRef.zone else args
  { args := args, requeue := false, stdin := none }

/-- The two command queues exposed by the mesh control-plane client. -/
inductive Queue where
  | control
  | catalog
  deriving DecidableEq, Repr

/-- `DeleteAllByGMObjectRefs` of commands.go: route each ref to a queue by
kind; an empty kind is logged as a hard error and the ref is dropped. -/
def DeleteAllByGMObjectRefs : List GMObjectRef → List (Queue × Cmd)
  | [] => []
  | objRef :: rest =>
    if objRef.kind = "catalogservice" then
      (Queue.catalog, mkDeleteByGMObjectRef objRef) :: DeleteAllByGMObjectRefs rest
    else if objRef.kind ≠ "" then
      (Queue.control, mkDeleteByGMObjectRef objRef) :: DeleteAllByGMObjectRefs rest
    else
      DeleteAllByGMObjectRefs rest

/-! ## Workload resources (src/pkg/mesh_install/installer.go)

The reconcilers read only a small slice of the Kubernetes types: labels,
annotations, container ports, volumes and image-pull-secret names. -/

/-- A container port (only the name is consulted). -/
structure ContainerPort where
  name : String
  deriving DecidableEq, Repr

/-- A container: name and ports; the rest is opaque. -/
structure Container where
  name  : String
  ports : List ContainerPort
  deriving DecidableEq, Repr

/-- The pod spec fields the reconcilers touch. -/
structure PodSpec where
  containers       : List Container
  volumes          : List String
  imagePullSecrets : List String
  deriving DecidableEq, Repr

/-- A pod template: metadata labels/annotations plus the pod spec. -/
structure PodTemplateSpec where
  labels      : List (String × String)
  annotations : List (String × String)
  spec        : PodSpec
  deriving DecidableEq, Repr

/-- A deployment-style resource: its own metadata labels and the pod
template under `Spec.Template`. -/
structure Deployment where
  name     : String
  labels   : List (String × String)
  template : PodTemplateSpec
  deriving DecidableEq, Repr

/-- A live pod: metadata labels and its containers. -/
structure Pod where
  name       : String
  labels     : List (String × String)
  containers : List Container
  deriving DecidableEq, Repr

/-- Modelled from the spec: `pkg/wellknown` is not under `src/`.  The
cluster-scope label used for service discovery. -/
def LABEL_CLUSTER : String := "greymatter.io/cluster"

/-- Modelled from the spec: the composite workload-identity label used for
mutual-authentication subject matching. -/
def LABEL_WORKLOAD : String := "greymatter.io/workload"

/-- Modelled from the spec: the inject-sidecar-to-port request
marker read from pod-template metadata. -/
def ANNOTATION_INJECT_SIDECAR_TO_PORT : String := "greymatter.io/inject-sidecar-to"

/-- `hasLabels` of installer.go: the pod template carries the
workload-identity label. -/
def hasLabels (tmpl : PodTemplateSpec) : Bool :=
  (mapLookup tmpl.labels LABEL_WORKLOAD).isSome

/-- `addLabels` of installer.go: stamp the cluster-scope label and the
composite `meshName.clusterName` workload label on the pod template. -/
def addLabels (tmpl : PodTemplateSpec) (meshName clusterName : String) : PodTemplateSpec :=
  { tmpl with
    labels :=
      mapInsert (mapInsert tmpl.labels LABEL_CLUSTER clusterName)
        LABEL_WORKLOAD (meshName ++ "." ++ clusterName) }

/-- The label-map core of `hasLabels`, as invoked by
`reconcileDeploymentLabels`, which passes `deployment.Labels` (the
resource's own metadata map) rather than the pod template. -/
def hasLabelsMap (labels : List (String × String)) : Bool :=
  (mapLookup labels LABEL_WORKLOAD).isSome

/-- The label-map core of `addLabels`, as invoked by
`reconcileDeploymentLabels` on `deployment.Labels`. -/
def addLabelsMap (labels : List (String × String)) (meshName clusterName : String) :
    List (String × String) :=
  mapInsert (mapInsert labels LABEL_CLUSTER clusterName)
    LABEL_WORKLOAD (meshName ++ "." ++ clusterName)

/-- `reconcileDeploymentLabels` of installer.go (the revision at the cited
lines): gate on and stamp `deployment.Labels`, then re-apply.  `none`
means the early return (no apply call, resource untouched); `some d`
means `k8sapi.Apply` was called with `d`.  The fire-and-forget
`ConfigureSidecar` goroutine has no effect on the resource. -/
def reconcileDeploymentLabels (meshName : String) (d : Deployment) : Option Deployment :=
  if hasLabelsMap d.labels then none
  else some { d with labels := addLabelsMap d.labels meshName d.name }

/-- The installer defaults read by the sidecar-injection reconciler. -/
structure InjectionDefaults where
  proxyPortName           : String
  autoCopyImagePullSecret : Bool
  deriving DecidableEq, Repr

/-- `reconcileDeploymentSidecarInjection` of installer.go, parameterized
over the configuration evaluator `UnifyAndExtractSidecar` (which returns
a sidecar container and volumes for a cluster label, or fails).  `none`
means no apply call was made and the resource is unchanged; `some d`
means `k8sapi.Apply` was called with the mutated resource `d`. -/
def reconcileDeploymentSidecarInjection (defaults : InjectionDefaults)
    (unifyAndExtractSidecar : String → Option (Container × List String))
    (d : Deployment) : Option Deployment :=
  match mapLookup d.template.annotations ANNOTATION_INJECT_SIDECAR_TO_PORT with
  | none => none
  | some injectSidecarTo =>
    if injectSidecarTo = "" then none
    else
      match mapLookup d.labels LABEL_CLUSTER with
      | none => none
      | some clusterLabel =>
        if d.template.spec.containers.any
            (fun c => c.ports.any (fun p => p.name = defaults.proxyPortName)) then
          none
        else
          match unifyAndExtractSidecar clusterLabel with
          | none => none
          | some (container, volumes) =>
            let spec1 :=
              { d.template.spec with
                containers := d.template.spec.containers ++ [container]
                volumes := d.template.spec.volumes ++ volumes }
            let spec2 :=
              if defaults.autoCopyImagePullSecret then
                if spec1.imagePullSecrets.any (fun s => s = "gm-docker-secret") then spec1
                else
                  { spec1 with
                    imagePullSecrets := spec1.imagePullSecrets ++ ["gm-docker-secret"] }
              else spec1
            some { d with template := { d.template with spec := spec2 } }

/-! ## Ingress-allowlist reconciler (installer.go) -/

/-- Set insertion as performed by the Go string-keyed set map used in
`reconcileSidecarListForRedisIngress`. -/
def setInsert (s : List String) (x : String) : List String :=
  if x ∈ s then s else s ++ [x]

/-- The nested container/port scan of `reconcileSidecarListForRedisIngress`:
every container port named like the proxy port contributes the pod's
cluster label to the sidecar set. -/
def sidecarSetOfPod (proxyPortName : String) (pod : Pod) : List String :=
  pod.containers.foldl
    (fun s c =>
      c.ports.foldl
        (fun s2 p =>
          if p.name = proxyPortName then
            match mapLookup pod.labels LABEL_CLUSTER with
            | some clusterName => setInsert s2 clusterName
            | none => s2
          else s2)
        s)
    []

/-- Ascending insertion of one string into a sorted list. -/
def insertSorted (x : String) : List String → List String
  | [] => [x]
  | y :: ys => if x ≤ y then x :: y :: ys else y :: insertSorted x ys

/-- `sort.Strings`: ascending lexicographic sort. -/
def sortStrings : List String → List String
  | [] => []
  | x :: xs => insertSorted x (sortStrings xs)

/-- The installer state read and written by the allowlist reconciler:
the recorded `Defaults.SidecarList`, the proxy port name, and whether the
mesh client is configured. -/
structure RedisIngressState where
  sidecarList   : List String
  proxyPortName : String
  clientPresent : Bool
  deriving DecidableEq, Repr

/-- `reconcileSidecarListForRedisIngress` of installer.go, parameterized
over the configuration evaluator
(`TempGMValueUnifiedWithDefaults` + `ExtractRedisListener`, as a function
of the updated sidecar list).  Returns the updated installer state and
the commands dispatched to the mesh control plane. -/
def reconcileSidecarListForRedisIngress
    (extractRedisListener : List String → Option String)
    (pod : Pod) (st : RedisIngressState) : RedisIngressState × List Cmd :=
  let sidecarList := sortStrings (sidecarSetOfPod st.proxyPortName pod)
  let recordedSorted := sortStrings st.sidecarList
  let st1 := { st with sidecarList := recordedSorted }
  if sidecarList.isEmpty || sidecarList = recordedSorted then (st1, [])
  else
    let st2 := { st1 with sidecarList := sidecarList }
    match extractRedisListener sidecarList with
    | none => (st2, [])
    | some redisListener =>
      if st2.clientPresent then (st2, [MkApply "listener" redisListener])
      else (st2, [])

/-! ## Concrete instances used to evaluate the embedded code

A possible behavior of the external collaborators on a handful of byte
strings: both `objA1` and `objA22` carry `zone_key` `z` and `cluster_key`
`a` (so they share an identity key), while their raw bytes differ, so the
content hash (injective on distinct bytes, modelled as the length here)
differs. -/

/-- One concrete gjson behavior. -/
def exampleGet (_objBytes : String) (field : String) : String :=
  if field = "zone_key" then "z" else if field = "cluster_key" then "a" else ""

/-- One concrete content-hash behavior: distinct bytes, distinct hash. -/
def exampleHash (objBytes : String) : Nat := objBytes.length

/-- One concrete structural hash for manifests. -/
def exampleHashObj (o : K8sObject) : Nat := o.body.length

/-- A concrete workload manifest. -/
def exampleManifest : K8sObject :=
  { ns := "gm-operator"
    gvk := { group := "apps", version := "v1", kind := "Deployment" }
    name := "test-deployment"
    body := "manifest-body-1" }

/-- A concrete config-object ref (what `NewGMObjectRef` yields for
`objA22` under `exampleGet`/`exampleHash`). -/
def exampleRef : GMObjectRef := { zone := "z", kind := "cluster", id := "a", hash := 6 }

/-- A store whose GM key holds loadable data while the K8s key holds
bytes that fail to deserialize. -/
def exampleStore : StoreModel :=
  { connectOK := true, gmGet := .ok "gmdata", k8sGet := .ok "badbytes" }

/-- Deserialization behavior for the GM key: `gmdata` decodes to a
one-entry snapshot. -/
def exampleUnmarshalGM (bs : String) : Option GMSnapshot :=
  if bs = "gmdata" then some [("z-cluster-a", exampleRef)] else none

/-- Deserialization behavior for the K8s key: nothing decodes. -/
def exampleUnmarshalK8sFail (_bs : String) : Option K8sSnapshot := none

/-- The state `NewSyncState` builds after a fully successful startup. -/
def healthySyncState : SyncStateModel :=
  { previousGMHashes := [], previousK8sHashes := [], saveChansPresent := true
    redisPresent := true, gmChanClosed := false, k8sChanClosed := false
    backupLoopLaunched := true }

/-- A `Sync` whose state backup started successfully. -/
def healthySync : SyncModel :=
  { cancelPresent := true, cancelled := false, syncState := some healthySyncState }

/-- A `Sync` whose `NewSyncState` failed (store never connected): the
`SyncState` field holds the zero-value state with a nil redis client. -/
def degradedSync : SyncModel :=
  { cancelPresent := true, cancelled := false, syncState := some emptySyncState }

/-- A store for which startup succeeds end to end. -/
def exampleStoreOK : StoreModel :=
  { connectOK := true, gmGet := .ok "gmdata", k8sGet := .ok "k8sdata" }

/-- Deserialization behavior for the K8s key: `k8sdata` decodes to the
empty snapshot. -/
def exampleUnmarshalK8sOK (bs : String) : Option K8sSnapshot :=
  if bs = "k8sdata" then some [] else none

/-- Concrete installer defaults. -/
def exampleDefaults : InjectionDefaults :=
  { proxyPortName := "proxy", autoCopyImagePullSecret := true }

/-- A concrete sidecar evaluator result. -/
def exampleEvalSidecar (_clusterLabel : String) : Option (Container × List String) :=
  some ({ name := "sidecar", ports := [{ name := "proxy" }] }, ["sidecar-volume"])

/-- A deployment whose pod template already carries a container port named
like the proxy port (it already has a sidecar), and which also carries the
injection annotation and the cluster label. -/
def exampleDeployWithSidecar : Deployment :=
  { name := "dep1"
    labels := [(LABEL_CLUSTER, "dep1")]
    template :=
      { labels := []
        annotations := [(ANNOTATION_INJECT_SIDECAR_TO_PORT, "8080")]
        spec :=
          { containers := [{ name := "app", ports := [{ name := "proxy" }] }]
            volumes := []
            imagePullSecrets := [] } } }

/-- A deployment whose pod template already carries the workload-identity
label while its own metadata labels are empty. -/
def exampleDeployTemplateLabeled : Deployment :=
  { name := "dep1"
    labels := []
    template :=
      { labels := [(LABEL_WORKLOAD, "m.c")]
        annotations := []
        spec := { containers := [], volumes := [], imagePullSecrets := [] } } }

/-- A pod with no containers (hence no sidecar port). -/
def examplePodNoSidecar : Pod := { name := "pod1", labels := [], containers := [] }

/-- Installer state with an empty recorded sidecar list. -/
def exampleIngressState : RedisIngressState :=
  { sidecarList := [], proxyPortName := "proxy", clientPresent := true }

/-- A concrete allowlist evaluator. -/
def exampleExtractListener (_sidecarList : List String) : Option String :=
  some "listenerbytes"

/-! ## Map and diff-pass lemmas -/

theorem mapLookup_insert {α : Type} (m : List (String × α)) (k k2 : String) (v : α) :
    mapLookup (mapInsert m k v) k2 = if k = k2 then some v else mapLookup m k2 := by
  induction m with
  | nil => simp [mapInsert, mapLookup]
  | cons p rest ih =>
    obtain ⟨k3, v3⟩ := p
    by_cases h3 : k3 = k
    · subst h3
      simp only [mapInsert, if_pos rfl, mapLookup]
      split_ifs <;> simp_all
    · simp only [mapInsert, if_neg h3, mapLookup]
      split_ifs <;> simp_all [mapLookup]

theorem mapLookup_mem {α : Type} {m : List (String × α)} {k : String} {v : α}
    (h : mapLookup m k = some v) : (k, v) ∈ m := by
  induction m with
  | nil => simp [mapLookup] at h
  | cons p rest ih =>
    obtain ⟨k2, v2⟩ := p
    simp only [mapLookup] at h
    split_ifs at h with h2
    · cases h; cases h2; simp
    · exact List.mem_cons_of_mem _ (ih h)

theorem mem_mapLookup_isSome {α : Type} {m : List (String × α)} {p : String × α}
    (h : p ∈ m) : (mapLookup m p.1).isSome := by
  induction m with
  | nil => cases h
  | cons q rest ih =>
    obtain ⟨k2, v2⟩ := q
    rcases List.mem_cons.mp h with h1 | h1
    · subst h1; simp [mapLookup]
    · simp only [mapLookup]
      split_ifs with h2
      · simp
      · exact ih h1

theorem mapLookup_eq_of_mem_nodup {α : Type} {m : List (String × α)}
    (hnd : (m.map Prod.fst).Nodup) {k : String} {v : α} (h : (k, v) ∈ m) :
    mapLookup m k = some v := by
  induction m with
  | nil => cases h
  | cons q rest ih =>
    obtain ⟨k2, v2⟩ := q
    simp only [List.map_cons, List.nodup_cons] at hnd
    rcases List.mem_cons.mp h with h1 | h1
    · cases h1; simp [mapLookup]
    · have hk : k2 ≠ k := by
        intro he
        exact hnd.1 (he ▸ (List.mem_map.mpr ⟨(k, v), h1, rfl⟩))
      simp only [mapLookup, if_neg hk]
      exact ih hnd.2 h1

theorem filterChangedCore_snd {α β : Type} (mk : α → β) (keyOf : β → String)
    (hashOf : β → Nat) (prev : List (String × β)) (l : List α) (acc : List (String × β)) :
    (filterChangedCore mk keyOf hashOf prev l acc).2
      = l.filter (fun a => changedCheck keyOf hashOf prev (mk a)) := by
  induction l generalizing acc with
  | nil => rfl
  | cons a rest ih =>
    simp only [filterChangedCore, List.filter_cons]
    split_ifs with h <;> simp [ih, h]

theorem filterChangedCore_fst {α β : Type} (mk : α → β) (keyOf : β → String)
    (hashOf : β → Nat) (prev : List (String × β)) (l : List α) (acc : List (String × β)) :
    (filterChangedCore mk keyOf hashOf prev l acc).1
      = l.foldl (fun m a => mapInsert m (keyOf (mk a)) (mk a)) acc := by
  induction l generalizing acc with
  | nil => rfl
  | cons a rest ih =>
    simp only [filterChangedCore, List.foldl_cons]
    split_ifs with h <;> simp [ih]

theorem mapLookup_foldl_insert_eq_none {α β : Type} (mk : α → β) (keyOf : β → String)
    (l : List α) (acc : List (String × β)) (k : String) :
    mapLookup (l.foldl (fun m a => mapInsert m (keyOf (mk a)) (mk a)) acc) k = none
      ↔ mapLookup acc k = none ∧ ∀ a ∈ l, keyOf (mk a) ≠ k := by
  induction l generalizing acc with
  | nil => simp
  | cons a rest ih =>
    rw [List.foldl_cons, ih, mapLookup_insert]
    by_cases hk : keyOf (mk a) = k
    · rw [if_pos hk]
      constructor
      · rintro ⟨h1, -⟩; cases h1
      · rintro ⟨-, h2⟩; exact absurd hk (h2 a (List.mem_cons_self a rest))
    · rw [if_neg hk]
      constructor
      · rintro ⟨h1, h2⟩
        exact ⟨h1, fun b hb => (List.mem_cons.mp hb).elim (fun he => he ▸ hk) (h2 b)⟩
      · rintro ⟨h1, h2⟩
        exact ⟨h1, fun b hb => h2 b (List.mem_cons_of_mem _ hb)⟩

theorem mapLookup_foldl_insert_not_mem {α β : Type} (mk : α → β) (keyOf : β → String)
    (l : List α) (acc : List (String × β)) (k : String)
    (h : ∀ a ∈ l, keyOf (mk a) ≠ k) :
    mapLookup (l.foldl (fun m a => mapInsert m (keyOf (mk a)) (mk a)) acc) k
      = mapLookup acc k := by
  induction l generalizing acc with
  | nil => rfl
  | cons a rest ih =>
    simp only [List.foldl_cons]
    rw [ih _ (fun b hb => h b (List.mem_cons_of_mem _ hb)), mapLookup_insert,
      if_neg (h a (List.mem_cons_self a rest))]

theorem mapLookup_foldl_insert_self {α β : Type} (mk : α → β) (keyOf : β → String)
    (l : List α) (acc : List (String × β))
    (hnd : (l.map (fun a => keyOf (mk a))).Nodup) {a : α} (ha : a ∈ l) :
    mapLookup (l.foldl (fun m a => mapInsert m (keyOf (mk a)) (mk a)) acc) (keyOf (mk a))
      = some (mk a) := by
  induction l generalizing acc with
  | nil => cases ha
  | cons b rest ih =>
    simp only [List.map_cons, List.nodup_cons] at hnd
    rcases List.mem_cons.mp ha with h1 | h1
    · subst h1
      simp only [List.foldl_cons]
      rw [mapLookup_foldl_insert_not_mem]
      · rw [mapLookup_insert, if_pos rfl]
      · intro c hc he
        exact hnd.1 (he ▸ (List.mem_map.mpr ⟨c, hc, rfl⟩))
    · simp only [List.foldl_cons]
      exact ih _ hnd.2 h1

theorem filter_lookup_self_none_nil {α : Type} (m : List (String × α)) :
    m.filter (fun p => (mapLookup m p.1).isNone) = [] := by
  rw [List.filter_eq_nil_iff]
  intro p hp
  have h := mem_mapLookup_isSome hp
  cases hl : mapLookup m p.1 with
  | none => rw [hl] at h; simp at h
  | some v => simp [hl]

theorem changedCheck_iff {β : Type} (keyOf : β → String) (hashOf : β → Nat)
    (prev : List (String × β)) (v : β) :
    changedCheck keyOf hashOf prev v = true
      ↔ (mapLookup prev (keyOf v) = none
         ∨ ∃ p, mapLookup prev (keyOf v) = some p ∧ hashOf p ≠ hashOf v) := by
  unfold changedCheck
  cases h : mapLookup prev (keyOf v) with
  | none => simp
  | some p => simp [bne_iff_ne]

theorem deleted_mem_iff {β : Type} (prev : List (String × β))
    (hnd : (prev.map Prod.fst).Nodup) (newH : List (String × β)) (ref : β) :
    ref ∈ (prev.filter (fun p => (mapLookup newH p.1).isNone)).map (·.2)
      ↔ ∃ k, mapLookup prev k = some ref ∧ mapLookup newH k = none := by
  constructor
  · intro h
    obtain ⟨p, hp, hpe⟩ := List.mem_map.mp h
    obtain ⟨hpm, hpf⟩ := List.mem_filter.mp hp
    obtain ⟨k0, v0⟩ := p
    cases hpe
    refine ⟨k0, mapLookup_eq_of_mem_nodup hnd hpm, ?_⟩
    simpa using hpf
  · rintro ⟨k, h1, h2⟩
    have hm := mapLookup_mem h1
    exact List.mem_map.mpr ⟨(k, ref), List.mem_filter.mpr ⟨hm, by simp [h2]⟩, rfl⟩

/-- C1: in both `FilterChangedGM` and `FilterChangedK8s`, a candidate is in
the changed list iff the previous snapshot has no ref at its identity key
or the prior ref's hash differs, the changed list preserves candidate
order (it is the order-preserving filter of the candidates by that test),
and a ref is deleted iff its identity key is bound in the previous
snapshot and no current candidate has that identity key (i.e. the key is
absent from the fresh map).  The previous-snapshot key lists are assumed
duplicate-free, as Go map keys are. -/
theorem C1_delta_classification
    (gjsonGet : String → String → String) (hashBytes : String → Nat)
    (hashObj : K8sObject → Nat)
    (prevGM : GMSnapshot) (prevK8s : K8sSnapshot)
    (configObjects kinds : List String) (manifests : List K8sObject)
    (_hlen : configObjects.length = kinds.length)
    (hndGM : (prevGM.map Prod.fst).Nodup) (hndK8s : (prevK8s.map Prod.fst).Nodup) :
    ((FilterChangedGM gjsonGet hashBytes prevGM configObjects kinds).filteredConf
        = ((configObjects.zip kinds).filter
            (fun a => changedCheck GMObjectRef.hashKey GMObjectRef.hash prevGM
              (NewGMObjectRef gjsonGet hashBytes a.1 a.2))).map (·.1)
      ∧ (FilterChangedGM gjsonGet hashBytes prevGM configObjects kinds).filteredKinds
        = ((configObjects.zip kinds).filter
            (fun a => changedCheck GMObjectRef.hashKey GMObjectRef.hash prevGM
              (NewGMObjectRef gjsonGet hashBytes a.1 a.2))).map
            (fun a => (NewGMObjectRef gjsonGet hashBytes a.1 a.2).kind)
      ∧ (∀ v : GMObjectRef,
          changedCheck GMObjectRef.hashKey GMObjectRef.hash prevGM v = true
            ↔ (mapLookup prevGM v.hashKey = none
               ∨ ∃ p, mapLookup prevGM v.hashKey = some p ∧ p.hash ≠ v.hash))
      ∧ (∀ ref : GMObjectRef,
          ref ∈ (FilterChangedGM gjsonGet hashBytes prevGM configObjects kinds).deleted
            ↔ ∃ k, mapLookup prevGM k = some ref
                ∧ ∀ a ∈ configObjects.zip kinds,
                    (NewGMObjectRef gjsonGet hashBytes a.1 a.2).hashKey ≠ k))
    ∧ ((FilterChangedK8s hashObj prevK8s manifests).filtered
        = manifests.filter
            (fun o => changedCheck K8sObjectRef.hashKey K8sObjectRef.hash prevK8s
              (NewK8sObjectRef hashObj o))
      ∧ (∀ v : K8sObjectRef,
          changedCheck K8sObjectRef.hashKey K8sObjectRef.hash prevK8s v = true
            ↔ (mapLookup prevK8s v.hashKey = none
               ∨ ∃ p, mapLookup prevK8s v.hashKey = some p ∧ p.hash ≠ v.hash))
      ∧ (∀ ref : K8sObjectRef,
          ref ∈ (FilterChangedK8s hashObj prevK8s manifests).deleted
            ↔ ∃ k, mapLookup prevK8s k = some ref
                ∧ ∀ o ∈ manifests, (NewK8sObjectRef hashObj o).hashKey ≠ k)) := by
  refine ⟨⟨?_, ?_, ?_, ?_⟩, ?_, ?_, ?_⟩
  · simp [FilterChangedGM, filterChangedCore_snd]
  · simp [FilterChangedGM, filterChangedCore_snd]
  · intro v
    exact changedCheck_iff GMObjectRef.hashKey GMObjectRef.hash prevGM v
  · intro ref
    show ref ∈ (prevGM.filter _).map (·.2) ↔ _
    rw [deleted_mem_iff prevGM hndGM]
    constructor
    · rintro ⟨k, h1, h2⟩
      rw [filterChangedCore_fst, mapLookup_foldl_insert_eq_none] at h2
      exact ⟨k, h1, h2.2⟩
    · rintro ⟨k, h1, h2⟩
      refine ⟨k, h1, ?_⟩
      rw [filterChangedCore_fst, mapLookup_foldl_insert_eq_none]
      exact ⟨rfl, h2⟩
  · simp [FilterChangedK8s, filterChangedCore_snd]
  · intro v
    exact changedCheck_iff K8sObjectRef.hashKey K8sObjectRef.hash prevK8s v
  · intro ref
    show ref ∈ (prevK8s.filter _).map (·.2) ↔ _
    rw [deleted_mem_iff prevK8s hndK8s]
    constructor
    · rintro ⟨k, h1, h2⟩
      rw [filterChangedCore_fst, mapLookup_foldl_insert_eq_none] at h2
      exact ⟨k, h1, h2.2⟩
    · rintro ⟨k, h1, h2⟩
      refine ⟨k, h1, ?_⟩
      rw [filterChangedCore_fst, mapLookup_foldl_insert_eq_none]
      exact ⟨rfl, h2⟩

/-- Witness for C1 at a concrete input: one configuration object and one
manifest diffed against empty snapshots. -/
theorem C1_delta_classification_witness :
    ((["objA1"].length = ["cluster"].length)
      ∧ (([] : GMSnapshot).map Prod.fst).Nodup ∧ (([] : K8sSnapshot).map Prod.fst).Nodup)
    ∧ (((FilterChangedGM exampleGet exampleHash [] ["objA1"] ["cluster"]).filteredConf
        = (((["objA1"].zip ["cluster"])).filter
            (fun a => changedCheck GMObjectRef.hashKey GMObjectRef.hash []
              (NewGMObjectRef exampleGet exampleHash a.1 a.2))).map (·.1)
      ∧ (FilterChangedGM exampleGet exampleHash [] ["objA1"] ["cluster"]).filteredKinds
        = (((["objA1"].zip ["cluster"])).filter
            (fun a => changedCheck GMObjectRef.hashKey GMObjectRef.hash []
              (NewGMObjectRef exampleGet exampleHash a.1 a.2))).map
            (fun a => (NewGMObjectRef exampleGet exampleHash a.1 a.2).kind)
      ∧ (∀ v : GMObjectRef,
          changedCheck GMObjectRef.hashKey GMObjectRef.hash [] v = true
            ↔ (mapLookup ([] : GMSnapshot) v.hashKey = none
               ∨ ∃ p, mapLookup ([] : GMSnapshot) v.hashKey = some p ∧ p.hash ≠ v.hash))
      ∧ (∀ ref : GMObjectRef,
          ref ∈ (FilterChangedGM exampleGet exampleHash [] ["objA1"] ["cluster"]).deleted
            ↔ ∃ k, mapLookup ([] : GMSnapshot) k = some ref
                ∧ ∀ a ∈ ["objA1"].zip ["cluster"],
                    (NewGMObjectRef exampleGet exampleHash a.1 a.2).hashKey ≠ k))
    ∧ ((FilterChangedK8s exampleHashObj [] [exampleManifest]).filtered
        = [exampleManifest].filter
            (fun o => changedCheck K8sObjectRef.hashKey K8sObjectRef.hash []
              (NewK8sObjectRef exampleHashObj o))
      ∧ (∀ v : K8sObjectRef,
          changedCheck K8sObjectRef.hashKey K8sObjectRef.hash [] v = true
            ↔ (mapLookup ([] : K8sSnapshot) v.hashKey = none
               ∨ ∃ p, mapLookup ([] : K8sSnapshot) v.hashKey = some p ∧ p.hash ≠ v.hash))
      ∧ (∀ ref : K8sObjectRef,
          ref ∈ (FilterChangedK8s exampleHashObj [] [exampleManifest]).deleted
            ↔ ∃ k, mapLookup ([] : K8sSnapshot) k = some ref
                ∧ ∀ o ∈ [exampleManifest], (NewK8sObjectRef exampleHashObj o).hashKey ≠ k))) :=
  ⟨⟨rfl, by simp, by simp⟩,
    C1_delta_classification exampleGet exampleHash exampleHashObj [] []
      ["objA1"] ["cluster"] [exampleManifest] rfl (by simp) (by simp)⟩

/-- C2 counterexample: two distinct config objects that share an identity
key (`exampleGet` extracts the same zone and id from both) but hash
differently.  The first pass stores the second object's hash at the
shared key, so re-running the identical candidate list still reports the
first object as changed: the second call's changed list is not empty. -/
theorem C2_counterexample :
    (FilterChangedGM exampleGet exampleHash
        (FilterChangedGM exampleGet exampleHash [] ["objA1", "objA22"]
          ["cluster", "cluster"]).previousGMHashes
        ["objA1", "objA22"] ["cluster", "cluster"]).filteredConf = ["objA1"]
    ∧ (FilterChangedGM exampleGet exampleHash
        (FilterChangedGM exampleGet exampleHash [] ["objA1", "objA22"]
          ["cluster", "cluster"]).previousGMHashes
        ["objA1", "objA22"] ["cluster", "cluster"]).filteredConf ≠ [] := by
  constructor
  · rfl
  · decide

theorem second_pass_filter_nil {α β : Type} (mk : α → β) (keyOf : β → String)
    (hashOf : β → Nat) (l : List α)
    (hnd : (l.map (fun a => keyOf (mk a))).Nodup) :
    l.filter (fun a => changedCheck keyOf hashOf
        (l.foldl (fun m a => mapInsert m (keyOf (mk a)) (mk a)) []) (mk a)) = [] := by
  rw [List.filter_eq_nil_iff]
  intro a ha
  have hl := mapLookup_foldl_insert_self mk keyOf l [] hnd ha
  simp [changedCheck, hl]

/-- C2 amended: running either delta computation twice with the identical
candidate list yields an empty changed list and an empty deleted list on
the second call, provided no two candidates share an identity key (the
counterexample shows the proviso is necessary for the changed list). -/
theorem C2_second_pass_empty
    (gjsonGet : String → String → String) (hashBytes : String → Nat)
    (hashObj : K8sObject → Nat)
    (prevGM : GMSnapshot) (prevK8s : K8sSnapshot)
    (configObjects kinds : List String) (manifests : List K8sObject)
    (_hlen : configObjects.length = kinds.length)
    (hndGM : ((configObjects.zip kinds).map
        (fun a => (NewGMObjectRef gjsonGet hashBytes a.1 a.2).hashKey)).Nodup)
    (hndK8s : (manifests.map (fun o => (NewK8sObjectRef hashObj o).hashKey)).Nodup) :
    ((FilterChangedGM gjsonGet hashBytes
        (FilterChangedGM gjsonGet hashBytes prevGM configObjects kinds).previousGMHashes
        configObjects kinds).filteredConf = []
      ∧ (FilterChangedGM gjsonGet hashBytes
        (FilterChangedGM gjsonGet hashBytes prevGM configObjects kinds).previousGMHashes
        configObjects kinds).filteredKinds = []
      ∧ (FilterChangedGM gjsonGet hashBytes
        (FilterChangedGM gjsonGet hashBytes prevGM configObjects kinds).previousGMHashes
        configObjects kinds).deleted = [])
    ∧ ((FilterChangedK8s hashObj
        (FilterChangedK8s hashObj prevK8s manifests).previousK8sHashes
        manifests).filtered = []
      ∧ (FilterChangedK8s hashObj
        (FilterChangedK8s hashObj prevK8s manifests).previousK8sHashes
        manifests).deleted = []) := by
  refine ⟨⟨?_, ?_, ?_⟩, ?_, ?_⟩
  · simp only [FilterChangedGM, filterChangedCore_snd, filterChangedCore_fst]
    rw [second_pass_filter_nil (fun a => NewGMObjectRef gjsonGet hashBytes a.1 a.2)
      GMObjectRef.hashKey GMObjectRef.hash (configObjects.zip kinds) hndGM]
    rfl
  · simp only [FilterChangedGM, filterChangedCore_snd, filterChangedCore_fst]
    rw [second_pass_filter_nil (fun a => NewGMObjectRef gjsonGet hashBytes a.1 a.2)
      GMObjectRef.hashKey GMObjectRef.hash (configObjects.zip kinds) hndGM]
    rfl
  · simp only [FilterChangedGM, filterChangedCore_fst]
    rw [filter_lookup_self_none_nil]
    rfl
  · simp only [FilterChangedK8s, filterChangedCore_snd, filterChangedCore_fst]
    exact second_pass_filter_nil (NewK8sObjectRef hashObj) K8sObjectRef.hashKey
      K8sObjectRef.hash manifests hndK8s
  · simp only [FilterChangedK8s, filterChangedCore_fst]
    rw [filter_lookup_self_none_nil]
    rfl

/-- Witness for C2 at a concrete input: singleton candidate lists have
duplicate-free identity keys. -/
theorem C2_second_pass_empty_witness :
    ((["objA1"].length = ["cluster"].length)
      ∧ ((["objA1"].zip ["cluster"]).map
        (fun a => (NewGMObjectRef exampleGet exampleHash a.1 a.2).hashKey)).Nodup
      ∧ ([exampleManifest].map (fun o => (NewK8sObjectRef exampleHashObj o).hashKey)).Nodup)
    ∧ (((FilterChangedGM exampleGet exampleHash
        (FilterChangedGM exampleGet exampleHash [] ["objA1"] ["cluster"]).previousGMHashes
        ["objA1"] ["cluster"]).filteredConf = []
      ∧ (FilterChangedGM exampleGet exampleHash
        (FilterChangedGM exampleGet exampleHash [] ["objA1"] ["cluster"]).previousGMHashes
        ["objA1"] ["cluster"]).filteredKinds = []
      ∧ (FilterChangedGM exampleGet exampleHash
        (FilterChangedGM exampleGet exampleHash [] ["objA1"] ["cluster"]).previousGMHashes
        ["objA1"] ["cluster"]).deleted = [])
    ∧ ((FilterChangedK8s exampleHashObj
        (FilterChangedK8s exampleHashObj [] [exampleManifest]).previousK8sHashes
        [exampleManifest]).filtered = []
      ∧ (FilterChangedK8s exampleHashObj
        (FilterChangedK8s exampleHashObj [] [exampleManifest]).previousK8sHashes
        [exampleManifest]).deleted = [])) :=
  ⟨⟨rfl, by simp, by simp⟩,
    C2_second_pass_empty exampleGet exampleHash exampleHashObj [] []
      ["objA1"] ["cluster"] [exampleManifest] rfl (by simp) (by simp)⟩

/-- C3 counterexample: the store connects and its GM key holds loadable
data, but the K8s key fails to deserialize.  The claim says the GM
universe's snapshot is still loaded and only the K8s universe degrades;
`NewSyncState` instead returns the zero-value state: the GM snapshot is
empty as well, and the backup loop (which contains the 30-second retry)
is never launched. -/
theorem C3_counterexample :
    NewSyncState exampleStore exampleUnmarshalGM exampleUnmarshalK8sFail = emptySyncState
    ∧ exampleUnmarshalGM "gmdata" = some [("z-cluster-a", exampleRef)]
    ∧ (NewSyncState exampleStore exampleUnmarshalGM exampleUnmarshalK8sFail).previousGMHashes
        ≠ [("z-cluster-a", exampleRef)]
    ∧ (NewSyncState exampleStore exampleUnmarshalGM
        exampleUnmarshalK8sFail).backupLoopLaunched = false := by
  refine ⟨rfl, rfl, by decide, rfl⟩

/-- C3 amended: `NewSyncState` makes a single connection attempt and
returns without crashing in every case; on connection failure, or on a
read or deserialization failure for either persisted key, it returns the
zero-value engine — empty snapshots for BOTH universes, no channels, no
redis client, and no background persistence loop (the 30-second retry
loop lives only inside that background loop, launched only after a fully
successful startup); only when the connect and both loads succeed are the
snapshots the decoded values and the loop launched. -/
theorem C3_startup_characterization
    (store : StoreModel) (uGM : String → Option GMSnapshot)
    (uK8s : String → Option K8sSnapshot) :
    (store.connectOK = false → NewSyncState store uGM uK8s = emptySyncState)
    ∧ (∀ e, store.gmGet = Except.error e → NewSyncState store uGM uK8s = emptySyncState)
    ∧ (∀ bs, store.gmGet = Except.ok bs → uGM bs = none →
        NewSyncState store uGM uK8s = emptySyncState)
    ∧ (∀ e, store.k8sGet = Except.error e → NewSyncState store uGM uK8s = emptySyncState)
    ∧ (∀ bs, store.k8sGet = Except.ok bs → uK8s bs = none →
        NewSyncState store uGM uK8s = emptySyncState)
    ∧ (∀ bsGM gm bsK8s k8s,
        store.connectOK = true →
        store.gmGet = Except.ok bsGM → uGM bsGM = some gm →
        store.k8sGet = Except.ok bsK8s → uK8s bsK8s = some k8s →
        NewSyncState store uGM uK8s =
          { previousGMHashes := gm, previousK8sHashes := k8s
            saveChansPresent := true, redisPresent := true
            gmChanClosed := false, k8sChanClosed := false
            backupLoopLaunched := true }) := by
  refine ⟨?_, ?_, ?_, ?_, ?_, ?_⟩
  · intro h
    simp [NewSyncState, h]
  · intro e he
    cases hc : store.connectOK <;> simp [NewSyncState, hc, he]
  · intro bs hbs hu
    cases hc : store.connectOK <;> simp [NewSyncState, hc, hbs, hu]
  · intro e he
    cases hc : store.connectOK
    · simp [NewSyncState, hc]
    · cases hg : store.gmGet with
      | error _ => simp [NewSyncState, hc, hg]
      | ok bs =>
        cases hu : uGM bs with
        | none => simp [NewSyncState, hc, hg, hu]
        | some gm => simp [NewSyncState, hc, hg, hu, he]
  · intro bs hbs hu
    cases hc : store.connectOK
    · simp [NewSyncState, hc]
    · cases hg : store.gmGet with
      | error _ => simp [NewSyncState, hc, hg]
      | ok bsG =>
        cases hug : uGM bsG with
        | none => simp [NewSyncState, hc, hg, hug]
        | some gm => simp [NewSyncState, hc, hg, hug, hbs, hu]
  · intro bsGM gm bsK8s k8s hc hg hug hk huk
    simp [NewSyncState, hc, hg, hug, hk, huk]

/-- Witness for C3 at a concrete input: a fully successful startup loads
both snapshots and launches the backup loop. -/
theorem C3_startup_characterization_witness :
    (exampleStoreOK.connectOK = true
      ∧ exampleStoreOK.gmGet = Except.ok "gmdata"
      ∧ exampleUnmarshalGM "gmdata" = some [("z-cluster-a", exampleRef)]
      ∧ exampleStoreOK.k8sGet = Except.ok "k8sdata"
      ∧ exampleUnmarshalK8sOK "k8sdata" = some [])
    ∧ NewSyncState exampleStoreOK exampleUnmarshalGM exampleUnmarshalK8sOK =
        { previousGMHashes := [("z-cluster-a", exampleRef)], previousK8sHashes := []
          saveChansPresent := true, redisPresent := true
          gmChanClosed := false, k8sChanClosed := false
          backupLoopLaunched := true } :=
  ⟨⟨rfl, rfl, rfl, rfl, rfl⟩,
    (C3_startup_characterization exampleStoreOK exampleUnmarshalGM
        exampleUnmarshalK8sOK).2.2.2.2.2
      "gmdata" [("z-cluster-a", exampleRef)] "k8sdata" [] rfl rfl rfl rfl rfl⟩

/-- C4 counterexample: after one successful iteration resolving head `a`,
an iteration whose `gitUpdate` fails resolves no head at all, yet the
callback fires on it (`gitUpdate` returns the empty string on error, which
the loop compares as the current head).  The claim says the callback fires
only on an iteration whose resolved head differs from the previous one. -/
theorem C4_counterexample :
    watchRun true [some "a", none] = [false, true]
    ∧ [some "a", (none : Option String)][1]? = some none := ⟨rfl, rfl⟩

theorem watchInvocations_aux (cb : Bool) (heads : List String)
    (hne : ∀ s ∈ heads, s ≠ "") (prev : String) (hprev : prev ≠ "") :
    watchInvocations cb prev (heads.map some)
      = List.zipWith (fun p c => cb && !(p == c)) (prev :: heads) heads := by
  induction heads generalizing prev with
  | nil => rfl
  | cons h t ih =>
    simp only [List.map_cons, watchInvocations, watchStep, watchCurrentSHA, List.zipWith]
    rw [ih (fun s hs => hne s (List.mem_cons_of_mem _ hs)) h (hne h (List.mem_cons_self h t))]
    have hb : (prev == "") = false := by
      simp [hprev]
    simp [hb]

/-- C4 amended: over a run in which every iteration resolves a head (and
head commit identifiers are never the empty string), the callback fires
never on the first iteration and on a later iteration exactly when the
callback is registered and that iteration's head differs from the
previous iteration's head.  An iteration whose `gitUpdate` fails is
treated by the code as resolving the empty-string head, so a failure
following a known head spuriously fires the callback (the
counterexample) and resets the known-head state. -/
theorem C4_watch_callback (cb : Bool) (heads : List String)
    (hne : ∀ s ∈ heads, s ≠ "") :
    watchRun cb (heads.map some) = watchClaimedInvocations cb heads := by
  cases heads with
  | nil => rfl
  | cons h t =>
    have hh : h ≠ "" := hne h (List.mem_cons_self h t)
    simp only [watchRun, List.map_cons, watchInvocations, watchStep, watchCurrentSHA,
      watchClaimedInvocations]
    rw [watchInvocations_aux cb t (fun s hs => hne s (List.mem_cons_of_mem _ hs)) h hh]
    simp

/-- Witness for C4 at a concrete input: two consecutive cycles resolving
the identical head fire no callback, and a third cycle with a new head
fires it exactly once. -/
theorem C4_watch_callback_witness :
    (∀ s ∈ ["a", "a", "b"], s ≠ "")
    ∧ watchRun true (["a", "a", "b"].map some) = watchClaimedInvocations true ["a", "a", "b"]
    ∧ watchClaimedInvocations true ["a", "a", "b"] = [false, false, true] :=
  ⟨by decide, C4_watch_callback true ["a", "a", "b"] (by decide), rfl⟩

/-- C5: the sidecar-injection reconciler is a no-op (resource unchanged,
no apply call) when a container port named like the proxy port already
exists, when the injection annotation is absent or empty, or when the
cluster-scope label is absent. -/
theorem C5_sidecar_injection_noop
    (defaults : InjectionDefaults)
    (unifyAndExtractSidecar : String → Option (Container × List String))
    (d : Deployment) :
    (d.template.spec.containers.any
        (fun c => c.ports.any (fun p => p.name = defaults.proxyPortName)) = true →
      reconcileDeploymentSidecarInjection defaults unifyAndExtractSidecar d = none)
    ∧ (mapLookup d.template.annotations ANNOTATION_INJECT_SIDECAR_TO_PORT = none →
      reconcileDeploymentSidecarInjection defaults unifyAndExtractSidecar d = none)
    ∧ (mapLookup d.template.annotations ANNOTATION_INJECT_SIDECAR_TO_PORT = some "" →
      reconcileDeploymentSidecarInjection defaults unifyAndExtractSidecar d = none)
    ∧ (mapLookup d.labels LABEL_CLUSTER = none →
      reconcileDeploymentSidecarInjection defaults unifyAndExtractSidecar d = none) := by
  refine ⟨?_, ?_, ?_, ?_⟩
  · intro h
    unfold reconcileDeploymentSidecarInjection
    cases ha : mapLookup d.template.annotations ANNOTATION_INJECT_SIDECAR_TO_PORT with
    | none => rfl
    | some v =>
      by_cases hv : v = ""
      · simp [hv]
      · simp only [if_neg hv]
        cases hl : mapLookup d.labels LABEL_CLUSTER with
        | none => rfl
        | some cl => simp [h]
  · intro h
    unfold reconcileDeploymentSidecarInjection
    rw [h]
  · intro h
    unfold reconcileDeploymentSidecarInjection
    rw [h]
    simp
  · intro h
    unfold reconcileDeploymentSidecarInjection
    cases ha : mapLookup d.template.annotations ANNOTATION_INJECT_SIDECAR_TO_PORT with
    | none => rfl
    | some v =>
      by_cases hv : v = ""
      · simp [hv]
      · simp [if_neg hv, h]

/-- Witness for C5 at a concrete input: a deployment whose template
already has a container port named like the proxy port is left alone even
though the annotation and label would otherwise select it for injection. -/
theorem C5_sidecar_injection_noop_witness :
    (exampleDeployWithSidecar.template.spec.containers.any
        (fun c => c.ports.any (fun p => p.name = exampleDefaults.proxyPortName)) = true)
    ∧ reconcileDeploymentSidecarInjection exampleDefaults exampleEvalSidecar
        exampleDeployWithSidecar = none :=
  ⟨by decide,
    (C5_sidecar_injection_noop exampleDefaults exampleEvalSidecar
        exampleDeployWithSidecar).1 (by decide)⟩

/-- C6: whenever the sorted discovered cluster-label set equals the
previously recorded sorted set, the ingress-allowlist reconciler issues
zero commands; conversely a command is dispatched only when the sorted
discovered set differs from the recorded one. -/
theorem C6_allowlist_noop
    (extractRedisListener : List String → Option String)
    (pod : Pod) (st : RedisIngressState) :
    (sortStrings (sidecarSetOfPod st.proxyPortName pod) = sortStrings st.sidecarList →
      (reconcileSidecarListForRedisIngress extractRedisListener pod st).2 = [])
    ∧ ((reconcileSidecarListForRedisIngress extractRedisListener pod st).2 ≠ [] →
      sortStrings (sidecarSetOfPod st.proxyPortName pod) ≠ sortStrings st.sidecarList) := by
  have h1 : sortStrings (sidecarSetOfPod st.proxyPortName pod) = sortStrings st.sidecarList →
      (reconcileSidecarListForRedisIngress extractRedisListener pod st).2 = [] := by
    intro h
    simp [reconcileSidecarListForRedisIngress, h]
  exact ⟨h1, fun hc he => hc (h1 he)⟩

/-- Witness for C6 at a concrete input: a pod with no sidecar and an
empty recorded list discover the same (empty) set, so no command is
dispatched. -/
theorem C6_allowlist_noop_witness :
    sortStrings (sidecarSetOfPod exampleIngressState.proxyPortName examplePodNoSidecar)
        = sortStrings exampleIngressState.sidecarList
    ∧ (reconcileSidecarListForRedisIngress exampleExtractListener examplePodNoSidecar
        exampleIngressState).2 = [] :=
  ⟨rfl,
    (C6_allowlist_noop exampleExtractListener examplePodNoSidecar exampleIngressState).1 rfl⟩

/-- C7 (code bug): evaluated at a deployment whose pod template already
carries the workload-identity label but whose own metadata labels do not,
`reconcileDeploymentLabels` still acts — it stamps the cluster-scope and
composite workload labels onto the resource's own metadata
(`deployment.Labels`) and re-applies, leaving the pod template untouched.
The claim (and the `hasLabels`/`addLabels` helpers at installer.go:281-297,
which take a `PodTemplateSpec`) require the gate and the stamp to be on
the pod template. -/
theorem C7_labels_stamped_on_parent_metadata :
    reconcileDeploymentLabels "mesh1" exampleDeployTemplateLabeled
      = some { exampleDeployTemplateLabeled with
          labels := [(LABEL_CLUSTER, "dep1"), (LABEL_WORKLOAD, "mesh1.dep1")] }
    ∧ (reconcileDeploymentLabels "mesh1" exampleDeployTemplateLabeled).map
        (fun d => d.template)
      = some exampleDeployTemplateLabeled.template
    ∧ hasLabels exampleDeployTemplateLabeled.template = true
    ∧ hasLabelsMap exampleDeployTemplateLabeled.labels = false :=
  ⟨rfl, rfl, rfl, rfl⟩

/-- C8 counterexample: for the catalog-entry kind the delete key flag is
`--service-id`, not the `--<kind>-key` template the claim states. -/
theorem C8_counterexample :
    (mkDeleteByGMObjectRef { zone := "z", kind := "catalogservice", id := "svc", hash := 0 }).args
      = "delete catalogservice --service-id svc --mesh-id z"
    ∧ (mkDeleteByGMObjectRef { zone := "z", kind := "catalogservice", id := "svc", hash := 0 }).args
      ≠ "delete catalogservice --catalogservice-key svc --mesh-id z" := by
  refine ⟨rfl, by decide⟩

/-- C8 amended: delete commands encode `delete <kind> --<kind>-key <id>`
for every kind other than the catalog-entry kind; for the catalog-entry
kind the key flag is `--service-id` and the `--mesh-id <zone>` flag is
added, exactly then.  Routing: catalog-entry refs go to the catalog
queue, every other non-empty kind to the control queue, and refs with an
empty kind are dropped. -/
theorem C8_delete_args_and_routing (objRef : GMObjectRef) (refs : List GMObjectRef) :
    ((objRef.kind = "catalogservice" →
        (mkDeleteByGMObjectRef objRef).args
          = "delete " ++ objRef.kind ++ " --service-id " ++ objRef.id
            ++ " --mesh-id " ++ objRef.zone)
      ∧ (objRef.kind ≠ "catalogservice" →
        (mkDeleteByGMObjectRef objRef).args
          = "delete " ++ objRef.kind ++ " --" ++ objRef.kind ++ "-key " ++ objRef.id))
    ∧ DeleteAllByGMObjectRefs refs
        = (refs.filter (fun r => r.kind ≠ "")).map
            (fun r =>
              (if r.kind = "catalogservice" then Queue.catalog else Queue.control,
                mkDeleteByGMObjectRef r)) := by
  refine ⟨⟨?_, ?_⟩, ?_⟩
  · intro h
    simp only [mkDeleteByGMObjectRef, kindFlag, if_pos h, h]
    simp only [String.append_assoc]
    congr 2
  · intro h
    simp only [mkDeleteByGMObjectRef, kindFlag, if_neg h]
    simp only [String.append_assoc]
    congr 2
  · induction refs with
    | nil => rfl
    | cons r rest ih =>
      by_cases hc : r.kind = "catalogservice"
      · have hne : r.kind ≠ "" := by rw [hc]; decide
        simp [DeleteAllByGMObjectRefs, hc, hne, ih]
      · by_cases he : r.kind = ""
        · simp [DeleteAllByGMObjectRefs, hc, he, ih]
        · simp [DeleteAllByGMObjectRefs, hc, he, ih]

/-- Witness for C8 at concrete inputs: the two args forms at a catalog
ref and a cluster ref. -/
theorem C8_delete_args_and_routing_witness :
    (({ zone := "z", kind := "catalogservice", id := "svc", hash := 0 } : GMObjectRef).kind
        = "catalogservice"
      ∧ ({ zone := "z", kind := "cluster", id := "c1", hash := 0 } : GMObjectRef).kind
        ≠ "catalogservice")
    ∧ (mkDeleteByGMObjectRef
        { zone := "z", kind := "catalogservice", id := "svc", hash := 0 }).args
      = "delete " ++ "catalogservice" ++ " --service-id " ++ "svc" ++ " --mesh-id " ++ "z"
    ∧ (mkDeleteByGMObjectRef { zone := "z", kind := "cluster", id := "c1", hash := 0 }).args
      = "delete " ++ "cluster" ++ " --" ++ "cluster" ++ "-key " ++ "c1" :=
  ⟨⟨rfl, by decide⟩,
    (C8_delete_args_and_routing
      { zone := "z", kind := "catalogservice", id := "svc", hash := 0 } []).1.1 rfl,
    (C8_delete_args_and_routing
      { zone := "z", kind := "cluster", id := "c1", hash := 0 } []).1.2 (by decide)⟩

/-- C9 (code bug): `Sync.Close` evaluated on the embedded states.  A first
`Close` on a successfully started `Sync` succeeds, but a second `Close`
panics closing the already-closed `saveChans` channels; and a single
`Close` on a `Sync` whose `NewSyncState` failed (the store was never
connected, so `SyncState` is the zero value with a nil redis client)
panics dereferencing the nil client.  The claim requires `Close` to be
idempotent and safe in exactly these scenarios. -/
theorem C9_close_panics :
    SyncClose healthySync
      = Except.ok { healthySync with
          cancelled := true
          syncState := some { healthySyncState with gmChanClosed := true, k8sChanClosed := true } }
    ∧ SyncClose { healthySync with
          cancelled := true
          syncState := some { healthySyncState with gmChanClosed := true, k8sChanClosed := true } }
      = Except.error "panic: close of closed channel"
    ∧ SyncClose degradedSync
      = Except.error "panic: nil pointer dereference in redis Client.Close"
    ∧ SyncClose { cancelPresent := true, cancelled := false, syncState := none }
      = Except.ok { cancelPresent := true, cancelled := true, syncState := none } :=
  ⟨rfl, rfl, rfl, rfl⟩

/-- C10 counterexample: five dirty signals issued before any drain leave
one signal in the buffer and four sender goroutines parked on the full
channel, and a subsequent full drain delivers all five signals (five
persistence attempts).  This refutes the coalescing reading of the claim:
pending signals beyond the buffered one queue up in parked senders, so
persistence lag is not bounded by one pending write and bursts do queue
without bound. -/
theorem C10_counterexample :
    sendN 5 chanEmpty = { buffered := 1, parked := 4, delivered := 0 }
    ∧ (chanRecv^[5] (sendN 5 chanEmpty)).delivered = 5
    ∧ 1 < (sendN 5 chanEmpty).parked := by
  refine ⟨rfl, rfl, by decide⟩

theorem sendN_closed (n : Nat) :
    sendN n chanEmpty
      = if n = 0 then chanEmpty
        else { buffered := 1, parked := n - 1, delivered := 0 } := by
  induction n with
  | zero => rfl
  | succ m ih =>
    rw [sendN, Function.iterate_succ_apply', ← sendN, ih]
    cases m with
    | zero => rfl
    | succ k => simp [chanSend, chanCap]

theorem drain_closed (n : Nat) : ∀ d : Nat,
    chanRecv^[n + 1] { buffered := 1, parked := n, delivered := d }
      = { buffered := 0, parked := 0, delivered := d + (n + 1) } := by
  induction n with
  | zero =>
    intro d
    rw [Function.iterate_one]
    simp [chanRecv]
  | succ m ih =>
    intro d
    rw [Function.iterate_succ_apply]
    have hstep : chanRecv { buffered := 1, parked := m + 1, delivered := d }
        = { buffered := 1, parked := m, delivered := d + 1 } := by
      simp [chanRecv]
    rw [hstep, ih (d + 1)]
    have harith : d + 1 + (m + 1) = d + (m + 1 + 1) := by omega
    rw [harith]

/-- C10 amended: each notification queue is capacity-bounded at 1 — after
any burst of N signals the buffer holds at most one (exactly `min N 1`)
unconsumed signal, and the diff pass itself never blocks (the send runs on
a spawned task) — but the blocked send does not coalesce: the other
`N - min N 1` signals park their sender tasks, and a full drain delivers
all N signals, i.e. N persistence attempts, so bursts queue without bound
in parked senders rather than in the channel. -/
theorem C10_signal_channel_behavior (n : Nat) :
    (sendN n chanEmpty).buffered ≤ chanCap
    ∧ (sendN n chanEmpty).buffered = min n 1
    ∧ (sendN n chanEmpty).parked = n - min n 1
    ∧ (chanRecv^[n] (sendN n chanEmpty)).delivered = n := by
  cases n with
  | zero => exact ⟨by decide, rfl, rfl, rfl⟩
  | succ m =>
    have hs := sendN_closed (m + 1)
    rw [if_neg (Nat.succ_ne_zero m), Nat.add_sub_cancel] at hs
    have hmin : min (m + 1) 1 = 1 := by omega
    refine ⟨?_, ?_, ?_, ?_⟩
    · rw [hs]; exact le_rfl
    · rw [hs, hmin]
    · rw [hs, hmin, Nat.add_sub_cancel]
    · rw [hs, drain_closed m 0]
      show 0 + (m + 1) = m + 1
      omega

end Operator
